import Mathlib

/-!
Shallow embedding of `src/german_tts.py`, a small PyQt desktop utility that
submits German text to a speech-synthesis service (gTTS) and plays the
resulting audio with pygame.  The embedding models the observable UI state,
the key-routing policy of `EnterKeyTextEdit.keyPressEvent`, and the
submit flow `TextToSpeechApp.text_to_speech` as a function from application
state plus an external-world oracle to a new state, a trace of observable
side effects, and an optional propagated error.
-/

/-- Qt key code `Qt.Key_Return` (the main Enter key), value from Qt. -/
def Qt_Key_Return : Nat := 0x01000004

/-- Qt key code `Qt.Key_Enter` (the keypad Enter key), value from Qt. -/
def Qt_Key_Enter : Nat := 0x01000005

/-- Qt modifier bitmask `Qt.ShiftModifier`, value from Qt. -/
def Qt_ShiftModifier : Nat := 0x02000000

/-- A key event as seen by `keyPressEvent`: `event.key()` and the
`event.modifiers()` bitmask. -/
structure KeyEvent where
  key : Nat
  modifiers : Nat
deriving DecidableEq

/-- The text edit's document, split at the cursor: `insertPlainText` inserts
at the cursor position. -/
structure TextEditState where
  beforeCursor : String
  afterCursor : String
deriving DecidableEq

/-- `QTextEdit.toPlainText`: the whole document as a string. -/
def toPlainText (ts : TextEditState) : String :=
  ts.beforeCursor ++ ts.afterCursor

/-- Python `str.strip()` (`src/german_tts.py:150`): remove leading and
trailing whitespace.  Embedded over the character list so it computes by
structural recursion; `Char.isWhitespace` covers space, tab, CR and LF,
the whitespace forms relevant to text typed into the field. -/
def strip (s : String) : String :=
  String.mk
    (((s.data.dropWhile Char.isWhitespace).reverse.dropWhile
        Char.isWhitespace).reverse)

/-- `QTextEdit.insertPlainText`: insert text at the cursor
(`src/german_tts.py:25`). -/
def insertPlainText (ts : TextEditState) (s : String) : TextEditState :=
  ⟨ts.beforeCursor ++ s, ts.afterCursor⟩

/-- Outcome of one `keyPressEvent` call: the updated document, whether the
event was consumed (default handling prevented by the early `return`,
`src/german_tts.py:30`), and whether the submit callback
`on_enter_pressed` was invoked. -/
structure KeyResult where
  state : TextEditState
  consumed : Bool
  submitInvoked : Bool
deriving DecidableEq

/-- `EnterKeyTextEdit.keyPressEvent` (`src/german_tts.py:21-31`).
`on_enter_set` embeds whether `self.on_enter_pressed` is not `None`
(the app wires it to `text_to_speech` at `src/german_tts.py:109`).
Enter/Return with Shift inserts a newline and consumes the event;
Enter/Return without Shift invokes the callback (when set) and consumes
the event; any other key falls through to `super().keyPressEvent`. -/
def keyPressEvent (on_enter_set : Bool) (ev : KeyEvent) (ts : TextEditState) :
    KeyResult :=
  if ev.key = Qt_Key_Return ∨ ev.key = Qt_Key_Enter then
    if ev.modifiers &&& Qt_ShiftModifier ≠ 0 then
      ⟨insertPlainText ts "\n", true, false⟩
    else
      ⟨ts, true, on_enter_set⟩
  else
    ⟨ts, false, false⟩

/-- The button's visual treatment: either the static `default_style`
stylesheet (`src/german_tts.py:53-65`) or the opacity-dependent pulsing
stylesheet written by `set_opacity` during animation ticks
(`src/german_tts.py:70-85`; the numeric opacity value is cosmetic and
elided). -/
inductive ButtonStyle
  | defaultStyle
  | pulsing
deriving DecidableEq

/-- Observable state of the `AnimatedButton`: Qt enabled flag, whether the
looping opacity animation is running, and the current stylesheet. -/
structure ButtonState where
  enabled : Bool
  animationRunning : Bool
  styleSheet : ButtonStyle
deriving DecidableEq

/-- `AnimatedButton.start_animation` (`src/german_tts.py:46-47`):
start the looping opacity animation. -/
def start_animation (b : ButtonState) : ButtonState :=
  { b with animationRunning := true }

/-- `AnimatedButton.stop_animation` (`src/german_tts.py:49-51`): stop the
animation and reset the stylesheet to the static default. -/
def stop_animation (b : ButtonState) : ButtonState :=
  { b with animationRunning := false, styleSheet := ButtonStyle.defaultStyle }

/-- `AnimatedButton.set_opacity` (`src/german_tts.py:70-85`), as run by the
animation ticks: overwrites the stylesheet with an opacity-dependent
pulsing treatment (numeric value elided). -/
def set_opacity (b : ButtonState) : ButtonState :=
  { b with styleSheet := ButtonStyle.pulsing }

/-- Observable state of the whole `TextToSpeechApp` widget. -/
structure AppState where
  button : ButtonState
  statusLabel : String
  textEdit : TextEditState
  slowChecked : Bool
deriving DecidableEq

/-- The status text set on submit (`src/german_tts.py:158`). -/
def speakingStatus : String := "🔊 Speaking..."

/-- The fixed target language passed to gTTS (`src/german_tts.py:165`). -/
def germanLang : String := "de"

/-- The spec's UIState enum: `Speaking` is the window between a successful
submit and its completion callback, during which the submit control is
disabled; `Idle` otherwise. -/
inductive UIState
  | Idle
  | Speaking
deriving DecidableEq

/-- Derived UIState: the spec identifies Speaking with the period the submit
control is disabled. -/
def uiState (st : AppState) : UIState :=
  if st.button.enabled then UIState.Idle else UIState.Speaking

/-- Actions a `QTimer.singleShot` can be armed with in this program:
the `done_speaking` completion callback (`src/german_tts.py:181`) or
deletion of the scratch file (`src/german_tts.py:185`). -/
inductive TimerAction
  | doneSpeaking
  | deleteTempFile
deriving DecidableEq

/-- Errors the external collaborators can raise, per the spec's taxonomy:
network/service failure in synthesis, scratch-file I/O failure, audio
playback failure. -/
inductive ExtError
  | synthesisFailure
  | fileIOFailure
  | playbackFailure
deriving DecidableEq

/-- Observable side effects of one submit, in program order. -/
inductive Effect
  | disableButton
  | startAnimation
  | setStatus (s : String)
  | synthRequest (text : String) (lang : String) (slow : Bool)
  | createTempFile
  | saveAudio
  | loadAudio
  | playAudio
  | measureDuration
  | scheduleTimer (delayMs : Nat) (act : TimerAction)
deriving DecidableEq

/-- Oracle for the external world during one submit: whether each fallible
external call raises (`none` = success), and the decoded audio length in
milliseconds that `int(pygame.mixer.Sound(temp_path).get_length() * 1000)`
measures on success (`src/german_tts.py:180`).
`saveResult` covers `tts.save` (the network request plus the file write,
`src/german_tts.py:175`), `loadResult` covers `pygame.mixer.music.load`
(`:176`), `playResult` covers `pygame.mixer.music.play` (`:177`), and
`measureResult` covers the `Sound(...).get_length()` measurement (`:180`). -/
structure World where
  saveResult : Option ExtError
  loadResult : Option ExtError
  playResult : Option ExtError
  measureResult : Option ExtError
  soundLengthMs : Nat
deriving DecidableEq

/-- All four external calls of one submit succeed. -/
def World.success (w : World) : Prop :=
  w.saveResult = none ∧ w.loadResult = none ∧ w.playResult = none ∧
    w.measureResult = none

instance (w : World) : Decidable w.success := by
  unfold World.success; infer_instance

/-- The `try` block of `text_to_speech` (`src/german_tts.py:174-181`):
runs `tts.save`, `music.load`, `music.play`, then measures the duration
and arms the one-shot completion timer with it.  Returns the effects the
block performed before finishing or raising, and the raised error if any.
The `finally` clause is appended by `text_to_speech` itself. -/
def tryPlayBody (w : World) : List Effect × Option ExtError :=
  match w.saveResult with
  | some e => ([], some e)
  | none =>
    match w.loadResult with
    | some e => ([Effect.saveAudio], some e)
    | none =>
      match w.playResult with
      | some e => ([Effect.saveAudio, Effect.loadAudio], some e)
      | none =>
        match w.measureResult with
        | some e => ([Effect.saveAudio, Effect.loadAudio, Effect.playAudio],
                     some e)
        | none =>
          ([Effect.saveAudio, Effect.loadAudio, Effect.playAudio,
            Effect.measureDuration,
            Effect.scheduleTimer w.soundLengthMs TimerAction.doneSpeaking],
           none)

/-- The state written by `src/german_tts.py:156-158` before synthesis:
button disabled, animation started, status set to the speaking text. -/
def speakingState (st : AppState) : AppState :=
  { st with
      button := start_animation { st.button with enabled := false },
      statusLabel := speakingStatus }

/-- The effects of `src/german_tts.py:156-167`: disable the button, start
the animation, set the status label, construct the gTTS request carrying
the trimmed text, the fixed language `de` and the slow flag, and create
the named scratch file. -/
def submitHeadEffects (text : String) (slow : Bool) : List Effect :=
  [Effect.disableButton, Effect.startAnimation, Effect.setStatus speakingStatus,
   Effect.synthRequest text germanLang slow, Effect.createTempFile]

/-- Result of one `text_to_speech` call: the new widget state, the trace of
observable side effects, and the error that propagated out unhandled, if
any. -/
structure SubmitResult where
  state : AppState
  effects : List Effect
  err : Option ExtError
deriving DecidableEq

/-- `TextToSpeechApp.text_to_speech` (`src/german_tts.py:149-185`).
Reads the document, strips it (Python `not text` on a string is true
exactly when the string is empty) and the slow checkbox; returns
unchanged on empty stripped text (`if not text: return`, `:153-154`).
Otherwise disables the button, starts the animation, sets the status,
builds the gTTS request, creates the scratch file, runs the `try` block,
and — in `finally` — always arms the fixed 1500 ms deletion timer
(`:183-185`).  Any error from the `try` block propagates out unhandled. -/
def text_to_speech (st : AppState) (w : World) : SubmitResult :=
  if strip (toPlainText st.textEdit) = "" then ⟨st, [], none⟩
  else
    ⟨speakingState st,
     submitHeadEffects (strip (toPlainText st.textEdit)) st.slowChecked
       ++ (tryPlayBody w).1
       ++ [Effect.scheduleTimer 1500 TimerAction.deleteTempFile],
     (tryPlayBody w).2⟩

/-- The `done_speaking` closure (`src/german_tts.py:169-172`): re-enable the
button, stop the animation (resetting the stylesheet), clear the status
label. -/
def done_speaking (st : AppState) : AppState :=
  { st with
      button := stop_animation { st.button with enabled := true },
      statusLabel := "" }

/-- User-originated events that can reach a submission path. -/
inductive UserEvent
  | clickButton
  | keyPress (ev : KeyEvent)
deriving DecidableEq

/-- One dispatch of a user event by the Qt event loop.  A click on a
disabled button emits no `clicked` signal (Qt semantics of
`setDisabled(True)`, `src/german_tts.py:156`), so the connected
`text_to_speech` does not run; a key press always goes through
`EnterKeyTextEdit.keyPressEvent`, whose `on_enter_pressed` callback is
`text_to_speech` unconditionally (`src/german_tts.py:109`). -/
def dispatch (st : AppState) (w : World) (uev : UserEvent) : SubmitResult :=
  match uev with
  | UserEvent.clickButton =>
      if st.button.enabled then text_to_speech st w
      else ⟨st, [], none⟩
  | UserEvent.keyPress k =>
      let kr := keyPressEvent true k st.textEdit
      let st1 := { st with textEdit := kr.state }
      if kr.submitInvoked then text_to_speech st1 w
      else ⟨st1, [], none⟩

/-- The synthesis requests in an effect trace, as (text, lang, slow). -/
def synthRequests (l : List Effect) : List (String × String × Bool) :=
  l.filterMap fun e =>
    match e with
    | Effect.synthRequest t lg s => some (t, lg, s)
    | _ => none

/-- The delays of the scratch-file deletion timers armed in a trace. -/
def deletionDelays (l : List Effect) : List Nat :=
  l.filterMap fun e =>
    match e with
    | Effect.scheduleTimer d TimerAction.deleteTempFile => some d
    | _ => none

/-- The delays of the completion (`done_speaking`) timers armed in a trace. -/
def completionDelays (l : List Effect) : List Nat :=
  l.filterMap fun e =>
    match e with
    | Effect.scheduleTimer d TimerAction.doneSpeaking => some d
    | _ => none

/-- A button in its initial, enabled, static configuration
(`src/german_tts.py:131-134`). -/
def idleButton : ButtonState :=
  ⟨true, false, ButtonStyle.defaultStyle⟩

/-- An idle application state holding `text` in the document, empty status,
slow checkbox checked (the default, `src/german_tts.py:125`). -/
def sampleIdle (text : String) : AppState :=
  ⟨idleButton, "", ⟨text, ""⟩, true⟩

/-- A world in which every external call succeeds and the decoded audio
measures 2000 ms. -/
def okWorld : World :=
  ⟨none, none, none, none, 2000⟩

/-- A world in which `tts.save` raises a synthesis (network) failure. -/
def saveFailWorld : World :=
  ⟨some ExtError.synthesisFailure, none, none, none, 2000⟩

/-- A plain Enter key press, no modifiers. -/
def plainEnter : KeyEvent :=
  ⟨Qt_Key_Return, 0⟩

/-- The application state during speech, reached from `sampleIdle "Hallo"`
by one successful submit. -/
def sampleSpeaking : AppState :=
  speakingState (sampleIdle "Hallo")

theorem synthRequests_append (a b : List Effect) :
    synthRequests (a ++ b) = synthRequests a ++ synthRequests b :=
  List.filterMap_append a b _

theorem deletionDelays_append (a b : List Effect) :
    deletionDelays (a ++ b) = deletionDelays a ++ deletionDelays b :=
  List.filterMap_append a b _

theorem completionDelays_append (a b : List Effect) :
    completionDelays (a ++ b) = completionDelays a ++ completionDelays b :=
  List.filterMap_append a b _

theorem synthRequests_tryPlayBody (w : World) :
    synthRequests (tryPlayBody w).1 = [] := by
  rcases w with ⟨sr, lr, pr, mr, dm⟩
  cases sr <;> cases lr <;> cases pr <;> cases mr <;> rfl

theorem deletionDelays_tryPlayBody (w : World) :
    deletionDelays (tryPlayBody w).1 = [] := by
  rcases w with ⟨sr, lr, pr, mr, dm⟩
  cases sr <;> cases lr <;> cases pr <;> cases mr <;> rfl

/-- Helper: on any world, a submit with non-empty stripped text emits exactly
one synthesis request, carrying the stripped text, `de`, and the checkbox
state. -/
theorem synthRequests_submit (st : AppState) (w : World)
    (h : strip (toPlainText st.textEdit) ≠ "") :
    synthRequests (text_to_speech st w).effects =
      [(strip (toPlainText st.textEdit), germanLang, st.slowChecked)] := by
  unfold text_to_speech
  rw [if_neg h]
  show synthRequests (submitHeadEffects _ _ ++ _ ++ _) = _
  rw [synthRequests_append, synthRequests_append, synthRequests_tryPlayBody]
  rfl

/-- Helper: on any world, a submit with non-empty stripped text arms exactly
one deletion timer, at the fixed 1500 ms delay. -/
theorem deletionDelays_submit (st : AppState) (w : World)
    (h : strip (toPlainText st.textEdit) ≠ "") :
    deletionDelays (text_to_speech st w).effects = [1500] := by
  unfold text_to_speech
  rw [if_neg h]
  show deletionDelays (submitHeadEffects _ _ ++ _ ++ _) = _
  rw [deletionDelays_append, deletionDelays_append, deletionDelays_tryPlayBody]
  rfl

theorem completionDelays_tryPlayBody_err (w : World)
    (he : (tryPlayBody w).2 ≠ none) :
    completionDelays (tryPlayBody w).1 = [] := by
  rcases w with ⟨sr, lr, pr, mr, dm⟩
  cases sr <;> cases lr <;> cases pr <;> cases mr <;>
    first
      | rfl
      | exact absurd rfl he

/-- Claim C2: a submit whose input strips to the empty string is a complete
no-op: the widget state is unchanged (so the submit control stays enabled,
the status label stays as it was, and UIState stays Idle), no effect is
performed — no synthesis request, no file, no timer — and no error is
surfaced. -/
theorem empty_submit_noop (st : AppState) (w : World)
    (h : strip (toPlainText st.textEdit) = "") :
    text_to_speech st w = ⟨st, [], none⟩ ∧
    uiState (text_to_speech st w).state = uiState st := by
  unfold text_to_speech
  rw [if_pos h]
  exact ⟨rfl, rfl⟩

theorem empty_submit_noop_witness :
    text_to_speech (sampleIdle "  ") okWorld = ⟨sampleIdle "  ", [], none⟩ ∧
    uiState (text_to_speech (sampleIdle "  ") okWorld).state =
      uiState (sampleIdle "  ") :=
  empty_submit_noop (sampleIdle "  ") okWorld (by decide)

/-- Claim C6: the key-routing policy of `EnterKeyTextEdit.keyPressEvent`,
with the submit callback wired (as the app wires it): Enter/Return with
Shift held inserts exactly one newline at the cursor, consumes the event,
and does not invoke the submit callback; Enter/Return without Shift
consumes the event, invokes the submit callback, and leaves the document
unchanged (no newline); every other key is passed through to the default
handler with nothing changed. -/
theorem keyPressEvent_routing (ev : KeyEvent) (ts : TextEditState) :
    ((ev.key = Qt_Key_Return ∨ ev.key = Qt_Key_Enter) →
      ev.modifiers &&& Qt_ShiftModifier ≠ 0 →
      keyPressEvent true ev ts =
        ⟨⟨ts.beforeCursor ++ "\n", ts.afterCursor⟩, true, false⟩) ∧
    ((ev.key = Qt_Key_Return ∨ ev.key = Qt_Key_Enter) →
      ev.modifiers &&& Qt_ShiftModifier = 0 →
      keyPressEvent true ev ts = ⟨ts, true, true⟩) ∧
    (¬(ev.key = Qt_Key_Return ∨ ev.key = Qt_Key_Enter) →
      keyPressEvent true ev ts = ⟨ts, false, false⟩) := by
  refine ⟨?_, ?_, ?_⟩
  · intro h1 h2
    unfold keyPressEvent
    rw [if_pos h1, if_pos h2]
    rfl
  · intro h1 h2
    unfold keyPressEvent
    rw [if_pos h1, if_neg (not_not_intro h2)]
  · intro h1
    unfold keyPressEvent
    rw [if_neg h1]

theorem keyPressEvent_routing_witness :
    keyPressEvent true ⟨Qt_Key_Return, Qt_ShiftModifier⟩ ⟨"ab", "cd"⟩ =
      ⟨⟨"ab" ++ "\n", "cd"⟩, true, false⟩ ∧
    keyPressEvent true ⟨Qt_Key_Return, 0⟩ ⟨"ab", "cd"⟩ =
      ⟨⟨"ab", "cd"⟩, true, true⟩ ∧
    keyPressEvent true ⟨65, 0⟩ ⟨"ab", "cd"⟩ = ⟨⟨"ab", "cd"⟩, false, false⟩ :=
  ⟨(keyPressEvent_routing ⟨Qt_Key_Return, Qt_ShiftModifier⟩ ⟨"ab", "cd"⟩).1
      (Or.inl rfl) (by decide),
   (keyPressEvent_routing ⟨Qt_Key_Return, 0⟩ ⟨"ab", "cd"⟩).2.1
      (Or.inl rfl) (by decide),
   (keyPressEvent_routing ⟨65, 0⟩ ⟨"ab", "cd"⟩).2.2 (by decide)⟩

/-- Claim C9: every submit with non-empty stripped text makes exactly one
synthesis request — on any world, success or failure — carrying the
stripped text verbatim, the fixed German language code `de`, and a slow
flag equal to the checkbox state at submit time. -/
theorem submit_synth_request_params (st : AppState) (w : World)
    (h : strip (toPlainText st.textEdit) ≠ "") :
    synthRequests (text_to_speech st w).effects =
      [(strip (toPlainText st.textEdit), germanLang, st.slowChecked)] :=
  synthRequests_submit st w h

theorem submit_synth_request_params_witness :
    synthRequests (text_to_speech (sampleIdle " Hallo ") okWorld).effects =
      [("Hallo", "de", true)] :=
  (submit_synth_request_params (sampleIdle " Hallo ") okWorld
      (by decide)).trans (by decide)

/-- Claim C4: every submit that reaches the synthesis step arms exactly one
scratch-file deletion timer, always at the fixed delay of 1500 ms — on any
world, whatever the measured audio duration and whether or not any step of
the try block failed, so the deletion timing is independent of the play
timing. -/
theorem deletion_fixed_delay (st : AppState) (w : World)
    (h : strip (toPlainText st.textEdit) ≠ "") :
    deletionDelays (text_to_speech st w).effects = [1500] :=
  deletionDelays_submit st w h

theorem deletion_fixed_delay_witness :
    deletionDelays (text_to_speech (sampleIdle "Hallo") okWorld).effects =
      [1500] :=
  deletion_fixed_delay (sampleIdle "Hallo") okWorld (by decide)

/-- Claim C10: when a submit reaches the synthesis step but the try block
raises an error — at save, load, play or duration measurement — the
`finally` clause still arms the 1500 ms scratch-file deletion timer, even
though the completion callback is never scheduled on that path. -/
theorem deletion_scheduled_on_error (st : AppState) (w : World)
    (h : strip (toPlainText st.textEdit) ≠ "")
    (he : (text_to_speech st w).err ≠ none) :
    deletionDelays (text_to_speech st w).effects = [1500] ∧
    completionDelays (text_to_speech st w).effects = [] := by
  have herr : (text_to_speech st w).err = (tryPlayBody w).2 := by
    unfold text_to_speech
    rw [if_neg h]
  have hb : (tryPlayBody w).2 ≠ none := herr ▸ he
  refine ⟨deletionDelays_submit st w h, ?_⟩
  unfold text_to_speech
  rw [if_neg h]
  show completionDelays (submitHeadEffects _ _ ++ _ ++ _) = _
  rw [completionDelays_append, completionDelays_append,
      completionDelays_tryPlayBody_err w hb]
  rfl

theorem deletion_scheduled_on_error_witness :
    deletionDelays (text_to_speech (sampleIdle "Hallo") saveFailWorld).effects =
      [1500] ∧
    completionDelays
        (text_to_speech (sampleIdle "Hallo") saveFailWorld).effects = [] :=
  deletion_scheduled_on_error (sampleIdle "Hallo") saveFailWorld (by decide)
    (by decide)

/-- Claim C3: on every successful submit, exactly one completion timer is
armed, its delay is the measured decoded length of the audio artifact
itself (not a fixed constant), and it is armed strictly after playback
start in the effect order — so the completion callback fires after
playback has started, after a duration that tracks the actual audio
length. -/
theorem completion_tracks_duration (st : AppState) (w : World)
    (h : strip (toPlainText st.textEdit) ≠ "") (hw : w.success) :
    completionDelays (text_to_speech st w).effects = [w.soundLengthMs] ∧
    ∃ i j, i < j ∧
      (text_to_speech st w).effects.get? i = some Effect.playAudio ∧
      (text_to_speech st w).effects.get? j =
        some (Effect.scheduleTimer w.soundLengthMs TimerAction.doneSpeaking) := by
  obtain ⟨h1, h2, h3, h4⟩ := hw
  unfold text_to_speech tryPlayBody submitHeadEffects
  rw [if_neg h, h1, h2, h3, h4]
  exact ⟨rfl, 7, 9, by norm_num, rfl, rfl⟩

theorem completion_tracks_duration_witness :
    completionDelays (text_to_speech (sampleIdle "Hallo") okWorld).effects =
      [okWorld.soundLengthMs] ∧
    ∃ i j, i < j ∧
      (text_to_speech (sampleIdle "Hallo") okWorld).effects.get? i =
        some Effect.playAudio ∧
      (text_to_speech (sampleIdle "Hallo") okWorld).effects.get? j =
        some (Effect.scheduleTimer okWorld.soundLengthMs
          TimerAction.doneSpeaking) :=
  completion_tracks_duration (sampleIdle "Hallo") okWorld (by decide)
    (by decide)

/-- Claim C5: when `tts.save` raises (synthesis network failure or scratch
file I/O failure), the submit does not handle it: the error propagates out
of `text_to_speech`, no completion timer is ever armed, and the widget is
left in the Speaking state — button disabled, animation running, status
still the speaking text. -/
theorem save_error_leaves_speaking (st : AppState) (w : World) (e : ExtError)
    (h : strip (toPlainText st.textEdit) ≠ "") (hs : w.saveResult = some e) :
    (text_to_speech st w).err = some e ∧
    completionDelays (text_to_speech st w).effects = [] ∧
    (text_to_speech st w).state.button.enabled = false ∧
    (text_to_speech st w).state.button.animationRunning = true ∧
    (text_to_speech st w).state.statusLabel = speakingStatus ∧
    uiState (text_to_speech st w).state = UIState.Speaking := by
  unfold text_to_speech tryPlayBody
  rw [if_neg h, hs]
  exact ⟨rfl, rfl, rfl, rfl, rfl, rfl⟩

theorem save_error_leaves_speaking_witness :
    (text_to_speech (sampleIdle "Hallo") saveFailWorld).err =
      some ExtError.synthesisFailure ∧
    completionDelays
        (text_to_speech (sampleIdle "Hallo") saveFailWorld).effects = [] ∧
    (text_to_speech (sampleIdle "Hallo") saveFailWorld).state.button.enabled =
      false ∧
    (text_to_speech (sampleIdle "Hallo")
        saveFailWorld).state.button.animationRunning = true ∧
    (text_to_speech (sampleIdle "Hallo") saveFailWorld).state.statusLabel =
      speakingStatus ∧
    uiState (text_to_speech (sampleIdle "Hallo") saveFailWorld).state =
      UIState.Speaking :=
  save_error_leaves_speaking (sampleIdle "Hallo") saveFailWorld
    ExtError.synthesisFailure (by decide) rfl

/-- Claim C7: on every successful submit with non-empty stripped text, the
observable side effects happen in exactly this order: disable the submit
control, start the pulsing animation, set the status to the speaking text;
then the synthesis request; then the scratch file creation and the save of
the audio into it; then playback load and start; then the duration
measurement and the arming of the completion timer; and last the arming of
the deletion timer. -/
theorem submit_effect_order (st : AppState) (w : World)
    (h : strip (toPlainText st.textEdit) ≠ "") (hw : w.success) :
    (text_to_speech st w).effects =
      [Effect.disableButton, Effect.startAnimation,
       Effect.setStatus speakingStatus,
       Effect.synthRequest (strip (toPlainText st.textEdit)) germanLang
         st.slowChecked,
       Effect.createTempFile, Effect.saveAudio, Effect.loadAudio,
       Effect.playAudio, Effect.measureDuration,
       Effect.scheduleTimer w.soundLengthMs TimerAction.doneSpeaking,
       Effect.scheduleTimer 1500 TimerAction.deleteTempFile] := by
  obtain ⟨h1, h2, h3, h4⟩ := hw
  unfold text_to_speech tryPlayBody submitHeadEffects
  rw [if_neg h, h1, h2, h3, h4]
  rfl

theorem submit_effect_order_witness :
    (text_to_speech (sampleIdle "Hallo") okWorld).effects =
      [Effect.disableButton, Effect.startAnimation,
       Effect.setStatus speakingStatus,
       Effect.synthRequest (strip (toPlainText (sampleIdle "Hallo").textEdit))
         germanLang (sampleIdle "Hallo").slowChecked,
       Effect.createTempFile, Effect.saveAudio, Effect.loadAudio,
       Effect.playAudio, Effect.measureDuration,
       Effect.scheduleTimer okWorld.soundLengthMs TimerAction.doneSpeaking,
       Effect.scheduleTimer 1500 TimerAction.deleteTempFile] :=
  submit_effect_order (sampleIdle "Hallo") okWorld (by decide) (by decide)

/-- Claim C8: whenever `done_speaking` runs it performs exactly these state
changes: it re-enables the submit control, stops the animation and resets
the button's stylesheet to the static default, and clears the status
label, returning UIState to Idle; the document and the checkbox are left
untouched. -/
theorem done_speaking_restores_idle (st : AppState) :
    (done_speaking st).button.enabled = true ∧
    (done_speaking st).button.animationRunning = false ∧
    (done_speaking st).button.styleSheet = ButtonStyle.defaultStyle ∧
    (done_speaking st).statusLabel = "" ∧
    uiState (done_speaking st) = UIState.Idle ∧
    (done_speaking st).textEdit = st.textEdit ∧
    (done_speaking st).slowChecked = st.slowChecked :=
  ⟨rfl, rfl, rfl, rfl, rfl, rfl, rfl⟩

/-- Claim C1 counterexample: from an idle state holding `Hallo`, one plain
Enter press starts a request and leaves the UI in Speaking, yet a second
plain Enter press — delivered while that request is still in flight, with
the submit button disabled for the whole interval — starts a second
synthesis request: `keyPressEvent` invokes `text_to_speech` directly
(`src/german_tts.py:28-29`), never consulting the disabled submit control,
so the plain-Enter submission path is not blocked during Speaking. -/
theorem enter_submits_while_speaking :
    uiState (dispatch (sampleIdle "Hallo") okWorld
        (UserEvent.keyPress plainEnter)).state = UIState.Speaking ∧
    synthRequests (dispatch
        (dispatch (sampleIdle "Hallo") okWorld
            (UserEvent.keyPress plainEnter)).state okWorld
        (UserEvent.keyPress plainEnter)).effects =
      [("Hallo", germanLang, true)] := by
  exact ⟨rfl, rfl⟩

/-- Claim C1 as amended: while a request is in flight (the submit control is
disabled), the button-click submission path is blocked — a click on the
disabled control is a complete no-op — but the plain-Enter path is not:
a plain Enter with non-empty stripped text starts a second synthesis
request even while UIState is Speaking. -/
theorem single_flight_button_only (st : AppState) (w : World) (k : KeyEvent)
    (hd : st.button.enabled = false)
    (hk : k.key = Qt_Key_Return ∨ k.key = Qt_Key_Enter)
    (hsh : k.modifiers &&& Qt_ShiftModifier = 0)
    (ht : strip (toPlainText st.textEdit) ≠ "") :
    dispatch st w UserEvent.clickButton = ⟨st, [], none⟩ ∧
    synthRequests (dispatch st w (UserEvent.keyPress k)).effects =
      [(strip (toPlainText st.textEdit), germanLang, st.slowChecked)] := by
  constructor
  · unfold dispatch
    rw [hd]
    rfl
  · have hkr : keyPressEvent true k st.textEdit = ⟨st.textEdit, true, true⟩ := by
      unfold keyPressEvent
      rw [if_pos hk, if_neg (not_not_intro hsh)]
    simp only [dispatch, hkr]
    exact synthRequests_submit st w ht

theorem single_flight_button_only_witness :
    dispatch sampleSpeaking okWorld UserEvent.clickButton =
      ⟨sampleSpeaking, [], none⟩ ∧
    synthRequests
        (dispatch sampleSpeaking okWorld (UserEvent.keyPress plainEnter)).effects =
      [(strip (toPlainText sampleSpeaking.textEdit), germanLang,
        sampleSpeaking.slowChecked)] :=
  single_flight_button_only sampleSpeaking okWorld plainEnter rfl
    (Or.inl rfl) (by decide) (by decide)
